import Mathlib

/-!
Verification of the fusion / aggregation core of the `mcp-weather` repository.

The Python sources `src/filters.py` and `src/aggregator.py` are shallowly
embedded below.  Python floats are modelled by exact rationals (`ℚ`), the
`int`-typed weather fields are embedded in `ℚ` as well (Python arithmetic mixes
ints and floats freely; the medians computed over them are float-valued),
nullable values by `Option`, and raising code by `Except`.  Mutation of the
snapshot list performed by the aggregator is made explicit: `aggregate` returns
the produced forecast together with the post-call state of its input list.
-/

namespace McpWeather

/-! ### Sorting helper

`np.median` and the local `median` helper of `_statistical_aggregate` both
take the middle of the list sorted in ascending order (averaging the two middle
elements for even length).  Any correct ascending sort realises this; we use
`List.insertionSort`, which is structurally recursive and evaluates by `decide`.
-/

/-- Middle of the ascending sort: the shared semantics of `np.median` (used by
`KalmanFilter1D.fuse`) and of the local `median` helper in
`WeatherAggregator._statistical_aggregate` (which returns `None` on `[]`). -/
def median_of (values : List ℚ) : Option ℚ :=
  if values = [] then none
  else
    let sorted_v := List.insertionSort (· ≤ ·) values
    let n := sorted_v.length
    if n % 2 = 1 then some (sorted_v.getD (n / 2) 0)
    else some ((sorted_v.getD (n / 2 - 1) 0 + sorted_v.getD (n / 2) 0) / 2)

/-- Semantics of `np.median` on the non-empty lists `fuse` feeds it. -/
def npMedian (l : List ℚ) : ℚ := (median_of l).getD 0

/-! ### `src/filters.py` — EWMA -/

/-- The `EWMA` filter object (`src/filters.py`, class `EWMA`).  `last_val` is
only used by the scalar `update` method; `smooth_array` keeps its running value
in a local variable. -/
structure EWMA where
  alpha : ℚ
  last_val : Option ℚ := none
deriving DecidableEq

/-- One step of the `smooth_array` loop body: a non-null input moves the
running value to `alpha * x + (1 - alpha) * current`, a null input leaves it
unchanged; the running value is appended either way. -/
def ewmaStep (alpha : ℚ) (x : Option ℚ) (cur : ℚ) : ℚ :=
  match x with
  | some v => alpha * v + (1 - alpha) * cur
  | none => cur

/-- The `for x in data` loop of `EWMA.smooth_array`. -/
def smoothAux (alpha : ℚ) (cur : ℚ) : List (Option ℚ) → List ℚ
  | [] => []
  | x :: rest =>
    let c := ewmaStep alpha x cur
    c :: smoothAux alpha c rest

/-- `EWMA.smooth_array` (`src/filters.py` lines 31-45): early-return `[]` on an
empty input, seed the running value with the first non-null element
(`next((x for x in data if x is not None), 0.0)`), then run the loop. -/
def EWMA.smooth_array (self : EWMA) (data : List (Option ℚ)) : List ℚ :=
  if data = [] then []
  else
    let current_val := (data.filterMap id).headD 0
    smoothAux self.alpha current_val data

/-! ### `src/filters.py` — 1D Kalman filter (the spec's `ScalarFusionFilter`) -/

/-- State of `KalmanFilter1D` (`src/filters.py` lines 48-63): estimate `x`,
uncertainty `p`, process noise `q`, default measurement noise `r`, and the
`initialized` flag. -/
@[ext]
structure KalmanFilter1D where
  x : ℚ
  p : ℚ
  q : ℚ
  r : ℚ
  initialized : Bool
deriving DecidableEq

/-- The constructor `KalmanFilter1D(process_variance, measurement_variance)`:
`x = 0.0`, `p = 1.0`, `initialized = False`. -/
def KalmanFilter1D.init (process_variance measurement_variance : ℚ) : KalmanFilter1D :=
  { x := 0, p := 1, q := process_variance, r := measurement_variance, initialized := false }

/-- The default constructor call `KalmanFilter1D()`:
`process_variance = 1e-4`, `measurement_variance = 1.0`. -/
def KalmanFilter1D.default : KalmanFilter1D := KalmanFilter1D.init (1 / 10000) 1

/-- `KalmanFilter1D.predict` (lines 65-68): `p ← p + q`. -/
def KalmanFilter1D.predict (f : KalmanFilter1D) : KalmanFilter1D :=
  { f with p := f.p + f.q }

/-- `KalmanFilter1D.update` (lines 70-90).  A `None` measurement is a no-op.
On the first real measurement the filter seeds `x ← z`, `p ← r or self.r`.
Afterwards it applies the gain `k = p / (p + r)`. -/
def KalmanFilter1D.update (f : KalmanFilter1D) (measurement : Option ℚ) (rOpt : Option ℚ) :
    KalmanFilter1D :=
  match measurement with
  | none => f
  | some z =>
    if f.initialized = false then
      { f with x := z, p := rOpt.getD f.r, initialized := true }
    else
      let measurement_noise := rOpt.getD f.r
      let k := f.p / (f.p + measurement_noise)
      { f with x := f.x + k * (z - f.x), p := (1 - k) * f.p }

/-- `KalmanFilter1D.fuse` (lines 92-115), specialised to `variances = None`
(each update then runs with `r = self.r`, exactly as `fuse` passes it).
Returns the final `x` together with the mutated filter state.  An empty batch,
or an uninitialized filter given only null measurements, returns `0.0`. -/
def KalmanFilter1D.fuse (f : KalmanFilter1D) (measurements : List (Option ℚ)) :
    ℚ × KalmanFilter1D :=
  if measurements = [] then (0, f)
  else
    let valid_measurements := measurements.filterMap id
    if f.initialized = false ∧ valid_measurements = [] then (0, f)
    else
      let f1 := if f.initialized then f
        else { f with x := npMedian valid_measurements, initialized := true }
      let f2 := measurements.foldl (fun g z => g.update z (some g.r)) f1
      (f2.x, f2)

/-- One iteration of the `fuse` loop on an already-unwrapped (non-null)
measurement: `self.update(z, self.r)`. -/
def kalmanStep (a : KalmanFilter1D) (z : ℚ) : KalmanFilter1D := a.update (some z) (some a.r)

/-! ### Data model (`src/models.py`)

Numeric fields are embedded in `ℚ`; `int`-typed fields (humidity, cloud cover,
probabilities) are embedded in `ℚ` too, since the aggregator's medians over
them are float-valued.  `fetched_at` is kept as an opaque string timestamp. -/

/-- `Location` (`src/models.py`). -/
structure Location where
  name : String
  latitude : ℚ
  longitude : ℚ
  country : Option String := none
  timezone : Option String := none
deriving DecidableEq

/-- `CurrentWeather` (`src/models.py`): `temperature` is the only required
numeric field; everything else is nullable. -/
structure CurrentWeather where
  temperature : ℚ
  feels_like : Option ℚ := none
  humidity : Option ℚ := none
  wind_speed : Option ℚ := none
  wind_direction : Option ℚ := none
  weather_code : Option ℤ := none
  weather_description : Option String := none
  uv_index : Option ℚ := none
  visibility : Option ℚ := none
  pressure : Option ℚ := none
  cloud_cover : Option ℚ := none
deriving DecidableEq

/-- `DailyForecast` (`src/models.py`). -/
structure DailyForecast where
  date : String
  temperature_max : ℚ
  temperature_min : ℚ
  weather_code : Option ℤ := none
  weather_description : Option String := none
  precipitation_probability : Option ℚ := none
  precipitation_sum : Option ℚ := none
  wind_speed_max : Option ℚ := none
  uv_index_max : Option ℚ := none
  sunrise : Option String := none
  sunset : Option String := none
deriving DecidableEq

/-- `HourlyForecast` (`src/models.py`). -/
structure HourlyForecast where
  time : String
  temperature : ℚ
  weather_code : Option ℤ := none
  weather_description : Option String := none
  precipitation_probability : Option ℚ := none
  wind_speed : Option ℚ := none
  humidity : Option ℚ := none
deriving DecidableEq

/-- Astronomy block.  Modelled from the spec: the snapshot's `src/models.py`
declares only `sunrise`, `sunset`, `moon_phase`, `moon_phase_name`, but
`aggregator.py` (lines 94-130), the `weatherapi` provider and
`tests/test_astronomy_fields.py` all read and write `moonrise`, `moonset`,
`moon_illumination`, `moon_distance`, `next_full_moon` and
`daylight_duration`; the spec describes the block as an "optional astronomy
block" that backfill fills.  The extended fields used by those callers are
included here as nullable fields. -/
structure Astronomy where
  sunrise : Option String := none
  sunset : Option String := none
  moon_phase : Option ℚ := none
  moon_phase_name : Option String := none
  moonrise : Option String := none
  moonset : Option String := none
  moon_illumination : Option ℚ := none
  moon_distance : Option ℚ := none
  next_full_moon : Option String := none
  daylight_duration : Option ℚ := none
deriving DecidableEq

/-- `WeatherData` (`src/models.py`) — the spec's `WeatherSnapshot`. -/
structure WeatherData where
  provider : String
  location : Location
  current : Option CurrentWeather := none
  daily_forecast : List DailyForecast := []
  hourly_forecast : List HourlyForecast := []
  astronomy : Option Astronomy := none
  fetched_at : String := ""
deriving DecidableEq

/-- `AggregatedForecast` (`src/models.py`).  Modelled from the spec in two
places where the snapshot's `models.py` is stale against `aggregator.py`:
`ai_summary` is optional (the spec requires "no summary text" for a single
source and `aggregate` passes `None` there), and `current` is optional (the
single-source path passes the snapshot's nullable current state through). -/
structure AggregatedForecast where
  location : Location
  current : Option CurrentWeather
  daily_forecast : List DailyForecast
  hourly_forecast : List HourlyForecast
  astronomy : Option Astronomy := none
  ai_summary : Option String := none
  confidence_score : ℚ
  sources_used : List String
deriving DecidableEq

/-! ### `src/aggregator.py` — WeatherAggregator

The aggregator's ambient effects are made explicit parameters:

* the ephemeris computation `get_astronomy_data` of `src/astro_calc.py` wraps
  the external `ephem` library; its outcome enters `aggregate` as an
  `Except Unit AstroCalcResult` (`.error` models the exception the backfill
  block catches and logs);
* the OpenAI chat call of `_ai_aggregate` enters as an
  `Except AIFailure AIResult` — `.error` models every failure the `try` block
  catches (network exception, timeout, empty content, malformed JSON), `.ok`
  carries the parsed JSON object, each key optional (`result.get`);
* whether an AI strategy is configured (`self.has_ai`) is a `Bool` parameter.

Python exceptions escaping `aggregate` are modelled by `Except AggError`, and
the in-place mutation of the snapshot list is modelled by returning the
post-call list next to the forecast. -/

/-- Result dictionary of `get_astronomy_data` (`src/astro_calc.py`): every
entry can be `None` (`calc_data.get(...)`). -/
structure AstroCalcResult where
  moonrise : Option String := none
  moonset : Option String := none
  moon_illumination : Option ℚ := none
  moon_phase : Option ℚ := none
  daylight_duration : Option ℚ := none
  moon_distance : Option ℚ := none
  next_full_moon : Option String := none
deriving DecidableEq

/-- Failure modes of the AI call, all caught by the same handler in
`_ai_aggregate` (lines 299-343). -/
inductive AIFailure where
  | exceptionRaised
  | timeout
  | emptyContent
  | malformed
deriving DecidableEq

/-- Parsed JSON object returned by the AI model; each field optional, read via
`result.get(...)` (lines 314-336). -/
structure AIResult where
  temperature : Option ℚ := none
  feels_like : Option ℚ := none
  humidity : Option ℚ := none
  wind_speed : Option ℚ := none
  conditions : Option String := none
  confidence : Option ℚ := none
  reasoning : Option String := none
deriving DecidableEq

/-- Python exceptions that can escape `aggregate`: the explicit
`ValueError("No weather data to aggregate")` on empty input (line 90), the
`AttributeError` raised when `None.temperature` / `None.weather_code` is
evaluated in `_statistical_aggregate` (lines 185, 201) because the first
snapshot has no current state, and the `IndexError` of `weather_data[0]`
(unreachable: both helpers are only called on non-empty lists). -/
inductive AggError where
  | invalidInput
  | attributeError
  | indexError
deriving DecidableEq

/-- Python truthiness of a nullable string (`None` and `""` are falsy). -/
def strTruthy : Option String → Bool
  | none => false
  | some s => !(s = "")

/-- Python truthiness of a nullable number (`None` and `0` are falsy). -/
def ratTruthy : Option ℚ → Bool
  | none => false
  | some v => !(v = 0)

/-- Python truthiness filter on a nullable number, as used by
`wd.current and wd.current.feels_like` (line 198): a present `0.0` is dropped
exactly like `None`. -/
def truthyFilter (o : Option ℚ) : Option ℚ :=
  match o with
  | some v => if v = 0 then none else some v
  | none => none

/-- The `needs_calc` test of `aggregate` (lines 98-104): truthiness of
`moonrise`, `moonset`, `daylight_duration`, `is not None` for `moon_phase` and
`moon_illumination`. -/
def needsCalc (a : Astronomy) : Bool :=
  !(strTruthy a.moonrise && strTruthy a.moonset && a.moon_phase.isSome &&
    a.moon_illumination.isSome && ratTruthy a.daylight_duration)

/-- The per-field backfill of lines 115-128: a field already truthy (strings,
`moon_distance`, `daylight_duration`) or non-`None` (`moon_phase`,
`moon_illumination`) is kept, otherwise the calculated value is taken. -/
def backfillAstronomy (a : Astronomy) (c : AstroCalcResult) : Astronomy :=
  { a with
    moonrise := if strTruthy a.moonrise then a.moonrise else c.moonrise
    moonset := if strTruthy a.moonset then a.moonset else c.moonset
    moon_phase := if a.moon_phase.isSome then a.moon_phase else c.moon_phase
    moon_illumination :=
      if a.moon_illumination.isSome then a.moon_illumination else c.moon_illumination
    daylight_duration :=
      if ratTruthy a.daylight_duration then a.daylight_duration else c.daylight_duration
    moon_distance := if ratTruthy a.moon_distance then a.moon_distance else c.moon_distance
    next_full_moon := if strTruthy a.next_full_moon then a.next_full_moon else c.next_full_moon }

/-- The astronomy backfill block of `aggregate` (lines 92-132).  The
`if weather_data[0].location` guard is always taken (`location` is a required
field, and object truthiness is `True`).  `base_astro` is
`weather_data[0].astronomy or Astronomy()`.  On a calculation failure the
exception is logged and the snapshot is left as it was. -/
def applyBackfill (wd0 : WeatherData) (astro_calc : Except Unit AstroCalcResult) : WeatherData :=
  let base_astro := wd0.astronomy.getD {}
  if needsCalc base_astro then
    match astro_calc with
    | .ok calc_data => { wd0 with astronomy := some (backfillAstronomy base_astro calc_data) }
    | .error _ => wd0
  else wd0

/-- Localized summary dictionary of `_statistical_aggregate` (lines 225-228):
`{"en": ..., "cs": ...}.get(language, english_default)`. -/
def statisticalSummary (language : String) (nSources : ℕ) : String :=
  let n := toString nSources
  if language = "cs" then
    "Agregováno z " ++ n ++ " zdrojů pomocí Kalmanova filtru a EWMA vyhlazování."
  else
    "Aggregated from " ++ n ++ " sources using Kalman Filter & EWMA smoothing."

/-- `WeatherAggregator._statistical_aggregate` (lines 157-231).

The only exception this code can raise is the `AttributeError` from
`weather_data[0].current.temperature` (line 185, reached when no snapshot has a
current state) or `weather_data[0].current.weather_code` (line 201, reached
whenever the first snapshot has none): every access to a possibly-`None`
attribute other than `weather_data[0].current` is guarded in the source.  The
embedding therefore branches on `weather_data[0].current` once, up front; both
raise sites collapse to the same observable `AttributeError`.

The EWMA pass (lines 208-217) overwrites the temperatures of the first
snapshot's hourly entries in place; the returned snapshot list carries the
mutated head. -/
def statistical_aggregate (weather_data : List WeatherData) (language : String) :
    Except AggError (AggregatedForecast × List WeatherData) :=
  match weather_data with
  | [] => throw AggError.indexError
  | wd0 :: rest =>
    match wd0.current with
    | none => throw AggError.attributeError
    | some c0 =>
      let data := wd0 :: rest
      let location := wd0.location
      let sources := data.map (·.provider)
      let kf_temp := KalmanFilter1D.init (1/10) 2
      let kf_wind := KalmanFilter1D.init (1/2) 3
      let kf_pressure := KalmanFilter1D.init (1/10) 1
      let temps := data.filterMap (fun wd => wd.current.map (·.temperature))
      let wind_speeds := data.filterMap (fun wd => wd.current.bind (·.wind_speed))
      let pressures := data.filterMap (fun wd => wd.current.bind (·.pressure))
      let humidities := data.filterMap (fun wd => wd.current.bind (·.humidity))
      let fused_temp := if temps = [] then c0.temperature else (kf_temp.fuse (temps.map some)).1
      let fused_wind :=
        if wind_speeds = [] then c0.wind_speed else some (kf_wind.fuse (wind_speeds.map some)).1
      let fused_pressure :=
        if pressures = [] then c0.pressure else some (kf_pressure.fuse (pressures.map some)).1
      let aggregated_current : CurrentWeather :=
        { temperature := fused_temp
          feels_like :=
            median_of (data.filterMap (fun wd => wd.current.bind (fun c => truthyFilter c.feels_like)))
          humidity := median_of humidities
          wind_speed := fused_wind
          weather_code := c0.weather_code
          weather_description := c0.weather_description
          uv_index := c0.uv_index
          pressure := fused_pressure
          cloud_cover := c0.cloud_cover }
      let base_hourly := wd0.hourly_forecast
      let new_hourly :=
        if base_hourly = [] then base_hourly
        else
          let ewma_temp : EWMA := { alpha := 2/5 }
          let smoothed_temps := ewma_temp.smooth_array (base_hourly.map (fun h => some h.temperature))
          (base_hourly.zip smoothed_temps).map (fun pr => { pr.1 with temperature := pr.2 })
      let wd0f := { wd0 with hourly_forecast := new_hourly }
      pure
        ({ location := location
           current := some aggregated_current
           daily_forecast := wd0.daily_forecast
           hourly_forecast := new_hourly
           astronomy := wd0.astronomy
           ai_summary := some (statisticalSummary language sources.length)
           confidence_score := 17/20
           sources_used := sources },
         wd0f :: rest)

/-- `WeatherAggregator._ai_aggregate` (lines 233-343).  Prompt construction is
pure string building with no observable effect; the call outcome is the
`outcome` parameter.  Any failure inside the `try` block — including the
`AttributeError` raised while evaluating the eagerly-computed default argument
`weather_data[0].current.temperature` of `result.get` (line 318) when the
first snapshot has no current state — lands in the `except` handler, which
falls back to `_statistical_aggregate` (line 343). -/
def ai_aggregate (weather_data : List WeatherData) (language : String)
    (outcome : Except AIFailure AIResult) :
    Except AggError (AggregatedForecast × List WeatherData) :=
  match weather_data with
  | [] => throw AggError.indexError
  | wd0 :: rest =>
    let sources := (wd0 :: rest).map (·.provider)
    match outcome with
    | .error _ => statistical_aggregate (wd0 :: rest) language
    | .ok result =>
      match wd0.current with
      | none => statistical_aggregate (wd0 :: rest) language
      | some c0 =>
        let aggregated_current : CurrentWeather :=
          { temperature := result.temperature.getD c0.temperature
            feels_like := result.feels_like
            humidity := result.humidity
            wind_speed := result.wind_speed
            weather_code := c0.weather_code
            weather_description :=
              match result.conditions with
              | some s => some s
              | none => c0.weather_description
            uv_index := c0.uv_index
            pressure := c0.pressure
            cloud_cover := c0.cloud_cover }
        pure
          ({ location := wd0.location
             current := some aggregated_current
             daily_forecast := wd0.daily_forecast
             hourly_forecast := wd0.hourly_forecast
             astronomy := wd0.astronomy
             ai_summary := some (result.reasoning.getD "AI aggregation complete")
             confidence_score := result.confidence.getD (17/20)
             sources_used := sources },
           wd0 :: rest)

/-- `WeatherAggregator.aggregate` (lines 71-155): fail fast on an empty list,
run the astronomy backfill on the first snapshot, pass a single source through
with confidence `0.75` and no summary, otherwise dispatch to the AI or the
statistical path. -/
def aggregate (has_ai : Bool) (astro_calc : Except Unit AstroCalcResult)
    (ai_outcome : Except AIFailure AIResult) (weather_data : List WeatherData)
    (user_language : String) :
    Except AggError (AggregatedForecast × List WeatherData) :=
  match weather_data with
  | [] => throw AggError.invalidInput
  | wd0 :: rest =>
    let wd0b := applyBackfill wd0 astro_calc
    let data := wd0b :: rest
    let location := wd0b.location
    let sources := data.map (·.provider)
    if rest = [] then
      pure
        ({ location := location
           current := wd0b.current
           daily_forecast := wd0b.daily_forecast
           hourly_forecast := wd0b.hourly_forecast
           astronomy := wd0b.astronomy
           ai_summary := none
           confidence_score := 3/4
           sources_used := sources },
         data)
    else if has_ai then ai_aggregate data user_language ai_outcome
    else statistical_aggregate data user_language

/-! ### `src/aggregator.py` — ambient theme classifier -/

/-- Return shape of `get_ambient_theme`: theme name, gradient colour triple,
optional effect tag. -/
structure ThemeResult where
  theme : String
  gradient : List String
  effect : Option String := none
deriving DecidableEq

/-- `WeatherAggregator.get_ambient_theme` (lines 345-524), a pure
priority-ordered classification.  `temp is not None` checks are always true in
the embedding because `CurrentWeather.temperature` is a required field, as in
`src/models.py`. -/
def get_ambient_theme (current_weather : CurrentWeather) (astronomy : Option Astronomy)
    (current_hour : ℕ) : ThemeResult :=
  let _ := astronomy
  let is_night := current_hour < 6 ∨ current_hour > 20
  let is_sunrise := 5 ≤ current_hour ∧ current_hour ≤ 7
  let is_sunset := 18 ≤ current_hour ∧ current_hour ≤ 20
  let weather_code := current_weather.weather_code.getD 0
  let cloud_cover := current_weather.cloud_cover.getD 0
  let description := current_weather.weather_description.getD ""
  let wind_speed := current_weather.wind_speed.getD 0
  let temp := current_weather.temperature
  if weather_code = 96 ∨ weather_code = 99 then
    { theme := "hail", gradient := ["#606c88", "#3f4c6b", "#BDBBBE"], effect := none }
  else if weather_code ∈ ([30, 31, 32, 33, 34, 35] : List ℤ) ∨
      (description.toLower.splitOn "sand").length ≠ 1 ∨
      (description.toLower.splitOn "dust").length ≠ 1 then
    { theme := "sandstorm", gradient := ["#c9aa88", "#e4d5b7", "#d6cebf"], effect := none }
  else if weather_code ∈ ([71, 73, 75, 77, 85, 86] : List ℤ) ∧ wind_speed ≥ 50 then
    { theme := "blizzard", gradient := ["#cfd9df", "#e2ebf0", "#fdfbfb"], effect := none }
  else if weather_code ≥ 95 then
    { theme := "storm", gradient := ["#1a0a2e", "#16213e", "#0f0f0f"], effect := some "lightning" }
  else if temp ≥ 32 then
    { theme := "extreme_heat", gradient := ["#ff4e50", "#f9d423", "#ff9a9e"], effect := none }
  else if temp ≤ -15 then
    { theme := "extreme_cold", gradient := ["#00c6ff", "#0072ff", "#a1c4fd"], effect := none }
  else if (match current_weather.wind_speed with | some w => decide (w ≥ 40) | none => false) = true then
    { theme := "wind", gradient := ["#4CA1AF", "#C4E0E5", "#2C3E50"], effect := none }
  else if weather_code = 45 ∨ weather_code = 48 then
    if is_night then
      { theme := "fog_night", gradient := ["#0f2027", "#203a43", "#2c5364"], effect := none }
    else
      { theme := "fog", gradient := ["#B0BEC5", "#CFD8DC", "#ECEFF1"], effect := none }
  else if (51 ≤ weather_code ∧ weather_code ≤ 67) ∨ (80 ≤ weather_code ∧ weather_code ≤ 82) then
    if is_night then
      { theme := "rain_night", gradient := ["#000046", "#1CB5E0", "#000851"], effect := none }
    else
      { theme := "rain", gradient := ["#4a6fa5", "#6b8cae", "#8fa8c2"], effect := none }
  else if (71 ≤ weather_code ∧ weather_code ≤ 77) ∨ (85 ≤ weather_code ∧ weather_code ≤ 86) then
    if is_night then
      { theme := "snow_night", gradient := ["#1e3c72", "#2a5298", "#2c5364"], effect := none }
    else
      { theme := "snow", gradient := ["#e8f4f8", "#d4e8ed", "#b8d4e3"], effect := none }
  else if weather_code = 2 ∨ weather_code = 3 ∨ cloud_cover ≥ 70 then
    if is_night then
      { theme := "cloudy_night", gradient := ["#2c3e50", "#34495e", "#1a1a2e"], effect := none }
    else
      { theme := "cloudy", gradient := ["#8e9eab", "#c5d5e4", "#eef2f3"], effect := none }
  else if is_sunrise ∧ weather_code ≤ 1 then
    { theme := "sunrise", gradient := ["#ff9a9e", "#fecfef", "#ffd89b"], effect := none }
  else if is_sunset ∧ weather_code ≤ 1 then
    { theme := "sunset", gradient := ["#fa709a", "#fee140", "#642b73"], effect := none }
  else if is_night then
    if cloud_cover > 50 then
      { theme := "cloudy_night", gradient := ["#2c3e50", "#34495e", "#1a1a2e"], effect := none }
    else
      { theme := "clear_night", gradient := ["#0f0c29", "#302b63", "#24243e"],
        effect := some "stars" }
  else
    { theme := "sunny", gradient := ["#f6d365", "#fda085", "#ffecd2"], effect := none }

/-! ### Statement-level definitions and concrete instances used by the claims -/

/-- The EWMA recurrence asserted by the spec for `smooth_array`: same length,
and every output equals `α·x[i] + (1-α)·y[i-1]` for a non-null input
(hold-last for null inputs), seeded with the first non-null input, `0` if
none. -/
def smoothRecurrence (alpha : ℚ) (data : List (Option ℚ)) : Prop :=
  (({ alpha := alpha } : EWMA).smooth_array data).length = data.length ∧
  ∀ i, i < data.length →
    (({ alpha := alpha } : EWMA).smooth_array data).getD i 0 =
      ewmaStep alpha (data.getD i none)
        (if i = 0 then (data.filterMap id).headD 0
         else (({ alpha := alpha } : EWMA).smooth_array data).getD (i - 1) 0)

/-- Agreement of two hourly entries on every field except `temperature` (the
one field the statistical path overwrites in place). -/
def hourlyAgreesExceptTemp (a b : HourlyForecast) : Prop :=
  a.time = b.time ∧ a.weather_code = b.weather_code ∧
  a.weather_description = b.weather_description ∧
  a.precipitation_probability = b.precipitation_probability ∧
  a.wind_speed = b.wind_speed ∧ a.humidity = b.humidity

/-- Default hourly entry used with `List.getD` in frame statements. -/
def hfDummy : HourlyForecast := { time := "", temperature := 0 }

/-- Concrete location for counterexamples and witnesses. -/
def locPrague : Location := { name := "Prague", latitude := 50, longitude := 14 }

/-- A snapshot whose provider delivered no current state (`current = None` is
legal in `src/models.py`: the field is `Optional`). -/
def wdNoCurrent : WeatherData := { provider := "open-meteo", location := locPrague }

/-- A plain snapshot with a current state. -/
def wdPlain : WeatherData :=
  { provider := "met-norway", location := locPrague, current := some { temperature := 20 } }

/-- A snapshot with a current state and a non-constant hourly curve. -/
def wdHourly : WeatherData :=
  { provider := "open-meteo", location := locPrague, current := some { temperature := 20 },
    hourly_forecast :=
      [{ time := "2026-10-12T00:00", temperature := 0 },
       { time := "2026-10-12T01:00", temperature := 10 }] }

/-- `wdHourly` after the statistical path has overwritten its hourly
temperatures with the EWMA(0.4)-smoothed curve `[0, 4]`. -/
def wdHourlySmoothed : WeatherData :=
  { wdHourly with
    hourly_forecast :=
      [{ time := "2026-10-12T00:00", temperature := 0 },
       { time := "2026-10-12T01:00", temperature := 4 }] }

end McpWeather

namespace McpWeather

/-! ## Theorems -/

/-- C4: theme classification is priority-ordered with hail first: every
current state with weather code 96 is classified `hail` at noon, even when its
temperature also qualifies for `extreme_heat` (≥ 32 °C), and independently of
the astronomy argument. -/
theorem c4_hail_beats_extreme_heat (cw : CurrentWeather) (astro : Option Astronomy)
    (hcode : cw.weather_code = some 96) (_htemp : 32 ≤ cw.temperature) :
    (get_ambient_theme cw astro 12).theme = "hail" := by
  unfold get_ambient_theme
  rw [hcode]
  norm_num

/-- Witness for C4 at a concrete state: code 96, 35 °C, noon. -/
theorem c4_hail_beats_extreme_heat_witness :
    ({ temperature := 35, weather_code := some 96 } : CurrentWeather).weather_code = some 96 ∧
    (32 : ℚ) ≤ ({ temperature := 35, weather_code := some 96 } : CurrentWeather).temperature ∧
    (get_ambient_theme { temperature := 35, weather_code := some 96 } none 12).theme = "hail" :=
  ⟨rfl, by norm_num,
    c4_hail_beats_extreme_heat { temperature := 35, weather_code := some 96 } none rfl
      (by norm_num)⟩

/-- C7 counterexample: the claim "update never increases `p`" fails on the
seeding update of a freshly constructed (uninitialized) filter, which sets
`p` to the supplied measurement variance: `p` grows from `1` to `2` here. -/
theorem c7_counterexample :
    KalmanFilter1D.default.p < (KalmanFilter1D.default.update (some 5) (some 2)).p := by
  decide

/-- C7 (amended): once the filter is initialized, a non-null measurement
update never increases the uncertainty `p` (for any measurement noise with
`p + noise > 0`); only the uninitialized seeding step can raise `p`. -/
theorem c7_update_nonincreasing (f : KalmanFilter1D) (z : ℚ) (rOpt : Option ℚ)
    (hinit : f.initialized = true) (hpos : 0 < f.p + rOpt.getD f.r) :
    (f.update (some z) rOpt).p ≤ f.p := by
  have hred : f.update (some z) rOpt =
      { f with x := f.x + f.p / (f.p + rOpt.getD f.r) * (z - f.x),
               p := (1 - f.p / (f.p + rOpt.getD f.r)) * f.p } := by
    unfold KalmanFilter1D.update
    rw [hinit]
    simp
  rw [hred]
  have hne : f.p + rOpt.getD f.r ≠ 0 := ne_of_gt hpos
  have h1 : (1 - f.p / (f.p + rOpt.getD f.r)) * f.p =
      f.p - f.p ^ 2 / (f.p + rOpt.getD f.r) := by
    field_simp
    ring
  have h2 : 0 ≤ f.p ^ 2 / (f.p + rOpt.getD f.r) := div_nonneg (sq_nonneg _) hpos.le
  simp only [h1]
  linarith

/-- Witness for C7 (amended) at a concrete initialized state. -/
theorem c7_update_nonincreasing_witness :
    ({ x := 0, p := 1, q := 1/10000, r := 1, initialized := true } : KalmanFilter1D).initialized
      = true ∧
    (0 : ℚ) < ({ x := 0, p := 1, q := 1/10000, r := 1, initialized := true } :
      KalmanFilter1D).p + (some 2 : Option ℚ).getD 1 ∧
    (({ x := 0, p := 1, q := 1/10000, r := 1, initialized := true } : KalmanFilter1D).update
      (some 5) (some 2)).p ≤ 1 :=
  ⟨rfl, by norm_num,
    c7_update_nonincreasing { x := 0, p := 1, q := 1/10000, r := 1, initialized := true } 5
      (some 2) rfl (by norm_num)⟩

/-- C9: for a freshly (default-)constructed filter, `fuse` of the empty batch
is `0`, `fuse` of an all-null batch is `0`, and `fuse` of a single non-null
measurement returns that measurement exactly. -/
theorem c9_fuse_base_cases :
    (KalmanFilter1D.default.fuse []).1 = 0 ∧
    (∀ ms : List (Option ℚ), (∀ z ∈ ms, z = none) → (KalmanFilter1D.default.fuse ms).1 = 0) ∧
    (∀ x : ℚ, (KalmanFilter1D.default.fuse [some x]).1 = x) := by
  refine ⟨rfl, ?_, ?_⟩
  · intro ms hms
    cases ms with
    | nil => rfl
    | cons b l =>
      have hv : (b :: l).filterMap id = [] := by
        rw [List.filterMap_eq_nil_iff]
        intro a ha
        rw [hms a ha]
        rfl
      simp [KalmanFilter1D.fuse, hv, KalmanFilter1D.default, KalmanFilter1D.init]
  · intro x
    simp [KalmanFilter1D.fuse, KalmanFilter1D.default, KalmanFilter1D.init,
      KalmanFilter1D.update, npMedian, median_of, List.insertionSort, List.orderedInsert]

/-- Witness for C9's all-null conjunct at a concrete two-element batch. -/
theorem c9_fuse_base_cases_witness :
    (∀ z ∈ ([none, none] : List (Option ℚ)), z = none) ∧
    (KalmanFilter1D.default.fuse [none, none]).1 = 0 :=
  ⟨by decide, c9_fuse_base_cases.2.1 [none, none] (by decide)⟩

/-! ### EWMA lemmas (C8) -/

lemma smoothAux_cons (a cur : ℚ) (x : Option ℚ) (l : List (Option ℚ)) :
    smoothAux a cur (x :: l) = ewmaStep a x cur :: smoothAux a (ewmaStep a x cur) l := rfl

lemma smoothAux_length (a : ℚ) (l : List (Option ℚ)) : ∀ cur, (smoothAux a cur l).length = l.length := by
  induction l with
  | nil => intro cur; rfl
  | cons x tl ih =>
    intro cur
    rw [smoothAux_cons]
    simp [ih]

lemma smoothAux_getD (a : ℚ) (l : List (Option ℚ)) : ∀ (cur : ℚ) (i : ℕ), i < l.length →
    (smoothAux a cur l).getD i 0 =
      ewmaStep a (l.getD i none)
        (if i = 0 then cur else (smoothAux a cur l).getD (i - 1) 0) := by
  induction l with
  | nil => intro cur i h; simp at h
  | cons x tl ih =>
    intro cur i h
    rw [smoothAux_cons]
    cases i with
    | zero => simp
    | succ j =>
      rw [List.getD_cons_succ, List.getD_cons_succ]
      rw [ih (ewmaStep a x cur) j (by simpa using h)]
      congr 1
      cases j with
      | zero => simp
      | succ k => simp

/-- C8: for every smoothing factor α ∈ (0,1], `smooth_array` keeps the length,
satisfies `y[i] = α·x[i] + (1-α)·y[i-1]` with the first non-null input (or 0)
as seed and hold-last on null inputs, maps `[]` to `[]`, and fixes constant
inputs `[c, c, c]`. -/
theorem c8_smooth_array_contract (alpha : ℚ) (_h0 : 0 < alpha) (_h1 : alpha ≤ 1) :
    (∀ data, smoothRecurrence alpha data) ∧
    ({ alpha := alpha } : EWMA).smooth_array [] = [] ∧
    (∀ c : ℚ, ({ alpha := alpha } : EWMA).smooth_array [some c, some c, some c] = [c, c, c]) := by
  refine ⟨?_, rfl, ?_⟩
  · intro data
    unfold smoothRecurrence
    by_cases hd : data = []
    · subst hd
      simp [EWMA.smooth_array]
    · have harr : ({ alpha := alpha } : EWMA).smooth_array data =
          smoothAux alpha ((data.filterMap id).headD 0) data := by
        unfold EWMA.smooth_array
        rw [if_neg hd]
      rw [harr]
      exact ⟨smoothAux_length alpha data _, fun i hi => smoothAux_getD alpha data _ i hi⟩
  · intro c
    have ha : alpha * c + (1 - alpha) * c = c := by ring
    simp [EWMA.smooth_array, smoothAux, ewmaStep, ha]

/-- Witness for C8 at α = 1/2 on the input `[none, some 4]`. -/
theorem c8_smooth_array_contract_witness :
    ((0 : ℚ) < 1/2 ∧ (1/2 : ℚ) ≤ 1) ∧
    ((∀ data, smoothRecurrence (1/2) data) ∧
     ({ alpha := 1/2 } : EWMA).smooth_array [] = [] ∧
     (∀ c : ℚ, ({ alpha := 1/2 } : EWMA).smooth_array [some c, some c, some c] = [c, c, c])) :=
  ⟨⟨by norm_num, by norm_num⟩, c8_smooth_array_contract (1/2) (by norm_num) (by norm_num)⟩

/-! ### Kalman fusion lemmas (C6, C10) -/

/-- Sorting is invariant under permutation of the input. -/
lemma insertionSort_eq_of_perm {l₁ l₂ : List ℚ} (h : l₁.Perm l₂) :
    List.insertionSort (· ≤ ·) l₁ = List.insertionSort (· ≤ ·) l₂ :=
  List.eq_of_perm_of_sorted
    ((List.perm_insertionSort _ _).trans (h.trans (List.perm_insertionSort _ _).symm))
    (List.sorted_insertionSort _ _) (List.sorted_insertionSort _ _)

lemma median_of_perm {l₁ l₂ : List ℚ} (h : l₁.Perm l₂) : median_of l₁ = median_of l₂ := by
  by_cases h1 : l₁ = []
  · subst h1
    rw [List.Perm.eq_nil h.symm]
  · have h2 : l₂ ≠ [] := fun he => h1 (List.Perm.eq_nil (he ▸ h))
    unfold median_of
    rw [if_neg h1, if_neg h2, insertionSort_eq_of_perm h]

lemma npMedian_perm {l₁ l₂ : List ℚ} (h : l₁.Perm l₂) : npMedian l₁ = npMedian l₂ := by
  unfold npMedian
  rw [median_of_perm h]

/-- On a non-empty all-non-null batch, `fuse` from a fresh filter seeds with
the median and folds the update over the batch. -/
lemma fuse_reduce (qv rv : ℚ) (l : List ℚ) (hl : l ≠ []) :
    (KalmanFilter1D.init qv rv).fuse (l.map some) =
      ((l.foldl kalmanStep
          { x := npMedian l, p := 1, q := qv, r := rv, initialized := true }).x,
       l.foldl kalmanStep
          { x := npMedian l, p := 1, q := qv, r := rv, initialized := true }) := by
  have hml : l.map some ≠ [] := by simpa using hl
  have hfm : (l.map some).filterMap id = l := by
    simp [List.filterMap_map]
  unfold KalmanFilter1D.fuse
  rw [if_neg hml]
  simp only [hfm, KalmanFilter1D.init, Bool.false_eq_true, false_and, and_false,
    if_neg hl, ite_false, List.foldl_map]
  simp only [hl, ite_false, if_neg hl]
  rfl

/-- Closed form of the update fold for unit measurement noise: sequential
scalar Kalman updates accumulate in information form, so from `(x, p)` the
fold over `l` lands at `((x + p·Σl) / (1 + p·|l|), p / (1 + p·|l|))`. -/
lemma kalman_fold_closed (qv : ℚ) (l : List ℚ) : ∀ x p : ℚ, 0 < p →
    l.foldl kalmanStep { x := x, p := p, q := qv, r := 1, initialized := true } =
      { x := (x + p * l.sum) / (1 + p * l.length),
        p := p / (1 + p * l.length), q := qv, r := 1, initialized := true } := by
  induction l with
  | nil =>
    intro x p hp
    ext <;> simp
  | cons z tl ih =>
    intro x p hp
    have hp1 : (0 : ℚ) < p + 1 := by linarith
    rw [List.foldl_cons]
    have hstep : kalmanStep { x := x, p := p, q := qv, r := 1, initialized := true } z =
        { x := (x + p * z) / (p + 1), p := p / (p + 1), q := qv, r := 1,
          initialized := true } := by
      unfold kalmanStep KalmanFilter1D.update
      simp only [Bool.true_eq_false, ite_false, if_false]
      ext
      all_goals field_simp
      all_goals ring
    rw [hstep, ih _ _ (div_pos hp hp1)]
    have hn : (0 : ℚ) ≤ (tl.length : ℚ) := Nat.cast_nonneg _
    have hq : (0 : ℚ) < p / (p + 1) := div_pos hp hp1
    have hd1 : (0 : ℚ) < 1 + p / (p + 1) * tl.length := by nlinarith
    have hd2 : (0 : ℚ) < 1 + p * ((tl.length : ℚ) + 1) := by nlinarith
    ext
    · simp only [List.sum_cons, List.length_cons]
      push_cast
      rw [div_eq_div_iff (by linarith) (by linarith)]
      field_simp
      ring
    · simp only [List.length_cons]
      push_cast
      rw [div_eq_div_iff (by linarith) (by linarith)]
      field_simp
      exact Or.inl (by ring)
    · rfl
    · rfl
    · rfl

/-- Closed form of `fuse` for a fresh filter with unit measurement variance on
a non-empty all-non-null batch. -/
lemma fuse_closed (qv : ℚ) (l : List ℚ) (hl : l ≠ []) :
    ((KalmanFilter1D.init qv 1).fuse (l.map some)).1 =
      (npMedian l + l.sum) / (1 + l.length) := by
  rw [fuse_reduce qv 1 l hl, kalman_fold_closed qv l (npMedian l) 1 one_pos]
  norm_num

/-- C6: for the default-constructed filter (default measurement variance, no
per-measurement variances), `fuse` depends only on the multiset of non-null
measurements — any permutation of the batch yields the same fused value, in
exact arithmetic. -/
theorem c6_fuse_perm_invariant (l₁ l₂ : List ℚ) (h : l₁.Perm l₂) :
    (KalmanFilter1D.default.fuse (l₁.map some)).1 =
      (KalmanFilter1D.default.fuse (l₂.map some)).1 := by
  rcases eq_or_ne l₁ [] with rfl | hne
  · rw [List.Perm.eq_nil h.symm]
  · have hne₂ : l₂ ≠ [] := fun he => hne (List.Perm.eq_nil (he ▸ h))
    unfold KalmanFilter1D.default
    rw [fuse_closed _ _ hne, fuse_closed _ _ hne₂,
      npMedian_perm h, List.Perm.sum_eq h, List.Perm.length_eq h]

/-- Witness for C6 on the concrete permutation `[3, 1, 2] ~ [1, 2, 3]`. -/
theorem c6_fuse_perm_invariant_witness :
    ([3, 1, 2] : List ℚ).Perm [1, 2, 3] ∧
    (KalmanFilter1D.default.fuse (([3, 1, 2] : List ℚ).map some)).1 =
      (KalmanFilter1D.default.fuse (([1, 2, 3] : List ℚ).map some)).1 :=
  ⟨by decide, c6_fuse_perm_invariant [3, 1, 2] [1, 2, 3] (by decide)⟩

/-- An in-bounds `getD` is an element of the list. -/
lemma getD_mem_of_lt (l : List ℚ) (i : ℕ) (h : i < l.length) (d : ℚ) : l.getD i d ∈ l := by
  rw [List.getD_eq_getElem l d h]
  exact List.getElem_mem h

/-- The median of a non-empty list lies within any interval containing all its
elements. -/
lemma npMedian_bounds (l : List ℚ) (hl : l ≠ []) (lo hi : ℚ)
    (hb : ∀ z ∈ l, lo ≤ z ∧ z ≤ hi) : lo ≤ npMedian l ∧ npMedian l ≤ hi := by
  unfold npMedian median_of
  rw [if_neg hl]
  have hmem : ∀ z ∈ List.insertionSort (· ≤ ·) l, lo ≤ z ∧ z ≤ hi := fun z hz =>
    hb z ((List.perm_insertionSort _ l).subset hz)
  have hlen : (List.insertionSort (· ≤ ·) l).length = l.length :=
    (List.perm_insertionSort _ l).length_eq
  have hpos : 0 < (List.insertionSort (· ≤ ·) l).length := by
    rw [hlen]
    exact List.length_pos.mpr hl
  by_cases hodd : (List.insertionSort (· ≤ ·) l).length % 2 = 1
  · rw [if_pos hodd]
    simp only [Option.getD_some]
    exact hmem _ (getD_mem_of_lt _ _ (by omega) 0)
  · rw [if_neg hodd]
    simp only [Option.getD_some]
    have h1 := hmem _ (getD_mem_of_lt (List.insertionSort (· ≤ ·) l)
      ((List.insertionSort (· ≤ ·) l).length / 2 - 1) (by omega) 0)
    have h2 := hmem _ (getD_mem_of_lt (List.insertionSort (· ≤ ·) l)
      ((List.insertionSort (· ≤ ·) l).length / 2) (by omega) 0)
    constructor <;> [linarith [h1.1, h2.1]; linarith [h1.2, h2.2]]

/-- Along the update fold, a positive-noise filter keeps `p` positive and `x`
inside any interval containing the prior estimate and all measurements: every
update moves `x` by a convex combination toward a measurement. -/
lemma kalman_fold_bounds (rv lo hi : ℚ) (hr : 0 < rv) :
    ∀ (l : List ℚ) (g : KalmanFilter1D), g.initialized = true → g.r = rv → 0 < g.p →
    lo ≤ g.x → g.x ≤ hi → (∀ z ∈ l, lo ≤ z ∧ z ≤ hi) →
    0 < (l.foldl kalmanStep g).p ∧ lo ≤ (l.foldl kalmanStep g).x ∧
      (l.foldl kalmanStep g).x ≤ hi := by
  intro l
  induction l with
  | nil =>
    intro g _ _ hp hlo hhi _
    exact ⟨hp, hlo, hhi⟩
  | cons z tl ih =>
    intro g hinit hgr hp hlo hhi hb
    rw [List.foldl_cons]
    have hzb := hb z (List.mem_cons_self z tl)
    have hpr : 0 < g.p + rv := by linarith
    have hk0 : 0 < g.p / (g.p + rv) := div_pos hp hpr
    have hk1 : g.p / (g.p + rv) < 1 := (div_lt_one hpr).mpr (by linarith)
    have hstep : kalmanStep g z =
        { g with x := g.x + g.p / (g.p + rv) * (z - g.x),
                 p := (1 - g.p / (g.p + rv)) * g.p } := by
      unfold kalmanStep KalmanFilter1D.update
      rw [hinit]
      simp [hgr]
    rw [hstep]
    refine ih _ hinit hgr ?_ ?_ ?_ (fun w hw => hb w (List.mem_cons_of_mem z hw))
    · exact mul_pos (by linarith) hp
    · simp only []
      nlinarith [hzb.1, hzb.2]
    · simp only []
      nlinarith [hzb.1, hzb.2]

/-- C10: for a freshly constructed filter with positive measurement variance,
the fused value of a non-empty batch of non-null measurements never leaves an
interval containing all measurements; in particular it lies between their
minimum and maximum. -/
theorem c10_fuse_within_range (qv rv lo hi : ℚ) (l : List ℚ) (hr : 0 < rv) (hl : l ≠ [])
    (hb : ∀ z ∈ l, lo ≤ z ∧ z ≤ hi) :
    lo ≤ ((KalmanFilter1D.init qv rv).fuse (l.map some)).1 ∧
      ((KalmanFilter1D.init qv rv).fuse (l.map some)).1 ≤ hi := by
  rw [fuse_reduce qv rv l hl]
  have hmed := npMedian_bounds l hl lo hi hb
  have h := kalman_fold_bounds rv lo hi hr l
    { x := npMedian l, p := 1, q := qv, r := rv, initialized := true }
    rfl rfl one_pos hmed.1 hmed.2 hb
  exact ⟨h.2.1, h.2.2⟩

/-- Witness for C10 on the batch `[1, 3]` with bounds `[1, 3]` and unit
measurement variance. -/
theorem c10_fuse_within_range_witness :
    (0 : ℚ) < 1 ∧ ([1, 3] : List ℚ) ≠ [] ∧
    (∀ z ∈ ([1, 3] : List ℚ), 1 ≤ z ∧ z ≤ 3) ∧
    (1 ≤ ((KalmanFilter1D.init (1/10000) 1).fuse (([1, 3] : List ℚ).map some)).1 ∧
      ((KalmanFilter1D.init (1/10000) 1).fuse (([1, 3] : List ℚ).map some)).1 ≤ 3) :=
  ⟨by norm_num, by decide, by decide,
    c10_fuse_within_range (1/10000) 1 1 3 [1, 3] (by norm_num) (by decide) (by decide)⟩

/-! ### Aggregator lemmas (C1, C2, C3, C5) -/

/-- The backfill either leaves the snapshot alone or replaces only its
astronomy block. -/
lemma applyBackfill_cases (wd : WeatherData) (c : Except Unit AstroCalcResult) :
    applyBackfill wd c = wd ∨
      ∃ a, applyBackfill wd c = { wd with astronomy := some a } := by
  unfold applyBackfill
  by_cases h : needsCalc (wd.astronomy.getD {}) = true
  · rw [if_pos h]
    cases c with
    | error e => exact Or.inl rfl
    | ok calc_data => exact Or.inr ⟨_, rfl⟩
  · rw [if_neg h]
    exact Or.inl rfl

/-- Every field of a snapshot except the astronomy block survives the
backfill. -/
lemma applyBackfill_preserves (wd : WeatherData) (c : Except Unit AstroCalcResult) :
    (applyBackfill wd c).provider = wd.provider ∧
    (applyBackfill wd c).location = wd.location ∧
    (applyBackfill wd c).current = wd.current ∧
    (applyBackfill wd c).daily_forecast = wd.daily_forecast ∧
    (applyBackfill wd c).hourly_forecast = wd.hourly_forecast ∧
    (applyBackfill wd c).fetched_at = wd.fetched_at := by
  rcases applyBackfill_cases wd c with h | ⟨a, h⟩ <;> rw [h] <;>
    exact ⟨rfl, rfl, rfl, rfl, rfl, rfl⟩

/-- When the first snapshot carries a current state, the statistical path
succeeds and stamps all provider labels and the fixed confidence `0.85`. -/
lemma statistical_aggregate_ok (wd0 : WeatherData) (rest : List WeatherData) (lang : String)
    (c0 : CurrentWeather) (hc : wd0.current = some c0) :
    ∃ f post, statistical_aggregate (wd0 :: rest) lang = .ok (f, post) ∧
      f.sources_used = (wd0 :: rest).map (·.provider) ∧ f.confidence_score = 17/20 := by
  simp only [statistical_aggregate, hc]
  exact ⟨_, _, rfl, rfl, rfl⟩

/-- The statistical path never raises the empty-input condition. -/
lemma statistical_ne_invalid (d : List WeatherData) (lang : String) :
    statistical_aggregate d lang ≠ .error .invalidInput := by
  unfold statistical_aggregate
  cases d with
  | nil =>
    show Except.error AggError.indexError ≠ Except.error AggError.invalidInput
    simp
  | cons wd0 rest =>
    cases hc : wd0.current with
    | none =>
      simp only [hc]
      show Except.error AggError.attributeError ≠ Except.error AggError.invalidInput
      simp
    | some c0 =>
      simp only [hc]
      show Except.ok _ ≠ Except.error AggError.invalidInput
      simp

/-- The AI path never raises the empty-input condition either. -/
lemma ai_aggregate_ne_invalid (d : List WeatherData) (lang : String)
    (outcome : Except AIFailure AIResult) :
    ai_aggregate d lang outcome ≠ .error .invalidInput := by
  unfold ai_aggregate
  cases d with
  | nil =>
    show Except.error AggError.indexError ≠ Except.error AggError.invalidInput
    simp
  | cons wd0 rest =>
    cases outcome with
    | error e => exact statistical_ne_invalid _ _
    | ok r =>
      cases hc : wd0.current with
      | none =>
        simp only [hc]
        exact statistical_ne_invalid _ _
      | some c0 =>
        simp only [hc]
        show Except.ok _ ≠ Except.error AggError.invalidInput
        simp

/-- C2: a single-snapshot call passes the snapshot through: the returned
forecast carries exactly the snapshot's current state, confidence `0.75`, no
summary text, and the one-element provider list. -/
theorem c2_single_source_passthrough (wd : WeatherData) (lang : String) (has_ai : Bool)
    (astro_calc : Except Unit AstroCalcResult) (ai : Except AIFailure AIResult) :
    ∃ f, aggregate has_ai astro_calc ai [wd] lang = .ok (f, [applyBackfill wd astro_calc]) ∧
      f.current = wd.current ∧ f.confidence_score = 3/4 ∧ f.ai_summary = none ∧
      f.sources_used = [wd.provider] := by
  refine ⟨_, rfl, (applyBackfill_preserves wd astro_calc).2.2.1, rfl, rfl, ?_⟩
  show [(applyBackfill wd astro_calc).provider] = [wd.provider]
  rw [(applyBackfill_preserves wd astro_calc).1]

/-- C3: the empty input list fails fast with the `InvalidInput` condition
(`ValueError("No weather data to aggregate")`), and no non-empty input ever
raises that condition. -/
theorem c3_empty_input_fails_fast :
    (∀ (has_ai : Bool) (astro_calc : Except Unit AstroCalcResult)
      (ai : Except AIFailure AIResult) (lang : String),
      aggregate has_ai astro_calc ai [] lang = .error .invalidInput) ∧
    (∀ (has_ai : Bool) (astro_calc : Except Unit AstroCalcResult)
      (ai : Except AIFailure AIResult) (lang : String) (wd : WeatherData)
      (rest : List WeatherData),
      aggregate has_ai astro_calc ai (wd :: rest) lang ≠ .error .invalidInput) := by
  constructor
  · intro _ _ _ _
    rfl
  · intro has_ai astro_calc ai lang wd rest
    simp only [aggregate]
    by_cases hr : rest = []
    · subst hr
      show Except.ok _ ≠ Except.error AggError.invalidInput
      simp
    · rw [if_neg hr]
      by_cases hai : has_ai = true

      · rw [if_pos hai]
        exact ai_aggregate_ne_invalid _ _ _
      · rw [if_neg hai]
        exact statistical_ne_invalid _ _

/-- Witness for C3's non-empty conjunct at a concrete one-snapshot call,
together with its empty-input conjunct instantiated. -/
theorem c3_empty_input_fails_fast_witness :
    aggregate false (.error ()) (.error AIFailure.timeout) [] "en" =
      .error AggError.invalidInput ∧
    aggregate false (.error ()) (.error AIFailure.timeout) [wdPlain] "en" ≠
      .error AggError.invalidInput :=
  ⟨c3_empty_input_fails_fast.1 false (.error ()) (.error AIFailure.timeout) "en",
    c3_empty_input_fails_fast.2 false (.error ()) (.error AIFailure.timeout) "en" wdPlain []⟩

/-- C1 counterexample: with two snapshots whose first carries no current
state, a failing AI call falls back to the statistical path, which itself
raises `AttributeError` (`weather_data[0].current.temperature` on `None`) —
the failure is propagated to the caller, contradicting the claim's "never". -/
theorem c1_counterexample :
    aggregate true (.error ()) (.error AIFailure.timeout) [wdNoCurrent, wdPlain] "en" =
      .error AggError.attributeError := rfl

/-- C1 (amended): for two or more snapshots whose first snapshot carries a
current state, a failing AI call (any failure mode) makes `aggregate` return
the statistical path's forecast — no error reaches the caller, and the result
carries all input provider labels and confidence `0.85`. -/
theorem c1_ai_failure_statistical_fallback (wd0 : WeatherData) (rest : List WeatherData)
    (lang : String) (astro_calc : Except Unit AstroCalcResult) (e : AIFailure)
    (c0 : CurrentWeather) (hc : wd0.current = some c0) (hrest : rest ≠ []) :
    ∃ f post,
      aggregate true astro_calc (.error e) (wd0 :: rest) lang = .ok (f, post) ∧
      aggregate true astro_calc (.error e) (wd0 :: rest) lang =
        statistical_aggregate (applyBackfill wd0 astro_calc :: rest) lang ∧
      f.sources_used = (wd0 :: rest).map (·.provider) ∧
      f.confidence_score = 17/20 := by
  have hagg : aggregate true astro_calc (.error e) (wd0 :: rest) lang =
      statistical_aggregate (applyBackfill wd0 astro_calc :: rest) lang := by
    simp only [aggregate]
    rw [if_neg hrest]
    simp only [if_true]
    rfl
  have hcb : (applyBackfill wd0 astro_calc).current = some c0 := by
    rw [(applyBackfill_preserves wd0 astro_calc).2.2.1]
    exact hc
  obtain ⟨f, post, hok, hsrc, hconf⟩ :=
    statistical_aggregate_ok (applyBackfill wd0 astro_calc) rest lang c0 hcb
  refine ⟨f, post, ?_, hagg, ?_, hconf⟩
  · rw [hagg]
    exact hok
  · rw [hsrc]
    simp [(applyBackfill_preserves wd0 astro_calc).1]

/-- Witness for C1 (amended) on a concrete two-snapshot call with an AI
timeout. -/
theorem c1_ai_failure_statistical_fallback_witness :
    wdPlain.current = some { temperature := 20 } ∧ ([wdHourly] : List WeatherData) ≠ [] ∧
    ∃ f post,
      aggregate true (.error ()) (.error AIFailure.timeout) [wdPlain, wdHourly] "en" =
        .ok (f, post) ∧
      aggregate true (.error ()) (.error AIFailure.timeout) [wdPlain, wdHourly] "en" =
        statistical_aggregate (applyBackfill wdPlain (.error ()) :: [wdHourly]) "en" ∧
      f.sources_used = ([wdPlain, wdHourly] : List WeatherData).map (·.provider) ∧
      f.confidence_score = 17/20 :=
  ⟨rfl, by decide,
    c1_ai_failure_statistical_fallback wdPlain [wdHourly] "en" (.error ()) .timeout
      { temperature := 20 } rfl (by decide)⟩

/-! ### Frame analysis (C5) -/

lemma hourlyAgreesExceptTemp_refl (a : HourlyForecast) : hourlyAgreesExceptTemp a a :=
  ⟨rfl, rfl, rfl, rfl, rfl, rfl⟩

lemma smooth_array_length (e : EWMA) (data : List (Option ℚ)) :
    (e.smooth_array data).length = data.length := by
  unfold EWMA.smooth_array
  by_cases hd : data = []
  · subst hd
    rfl
  · rw [if_neg hd]
    exact smoothAux_length _ _ _

/-- What the statistical path does to the snapshot list: it replaces the first
snapshot's hourly series by the temperature-smoothed one (all other fields,
and all other snapshots, unchanged). -/
lemma statistical_post (wd0 : WeatherData) (rest : List WeatherData) (lang : String)
    (f : AggregatedForecast) (post : List WeatherData)
    (h : statistical_aggregate (wd0 :: rest) lang = .ok (f, post)) :
    ∃ wd0f, post = wd0f :: rest ∧
      wd0f.provider = wd0.provider ∧ wd0f.location = wd0.location ∧
      wd0f.current = wd0.current ∧ wd0f.daily_forecast = wd0.daily_forecast ∧
      wd0f.fetched_at = wd0.fetched_at ∧
      wd0f.hourly_forecast.length = wd0.hourly_forecast.length ∧
      (∀ i, i < wd0.hourly_forecast.length →
        hourlyAgreesExceptTemp (wd0f.hourly_forecast.getD i hfDummy)
          (wd0.hourly_forecast.getD i hfDummy)) := by
  cases hc : wd0.current with
  | none =>
    simp only [statistical_aggregate, hc] at h
    exact absurd h (by simp)
  | some c0 =>
    simp only [statistical_aggregate, hc] at h
    rw [show (pure : AggregatedForecast × List WeatherData →
      Except AggError (AggregatedForecast × List WeatherData)) = Except.ok from rfl] at h
    rw [Except.ok.injEq, Prod.mk.injEq] at h
    obtain ⟨hf, hpost⟩ := h
    refine ⟨_, hpost.symm, rfl, rfl, rfl, rfl, rfl, ?_, ?_⟩
    · by_cases hb : wd0.hourly_forecast = []
      · simp [hb]
      · simp only [if_neg hb]
        simp [List.length_zip, smooth_array_length]
    · intro i hi
      by_cases hb : wd0.hourly_forecast = []
      · rw [hb] at hi
        simp at hi
      · simp only [if_neg hb]
        have hsm : (({ alpha := 2/5 } : EWMA).smooth_array
            (wd0.hourly_forecast.map (fun h => some h.temperature))).length =
            wd0.hourly_forecast.length := by
          rw [smooth_array_length, List.length_map]
        have hzl : ((wd0.hourly_forecast.zip
            (({ alpha := 2/5 } : EWMA).smooth_array
              (wd0.hourly_forecast.map (fun h => some h.temperature)))).map
            (fun pr => { pr.1 with temperature := pr.2 })).length =
            wd0.hourly_forecast.length := by
          simp [List.length_zip, hsm]
        rw [List.getD_eq_getElem _ _ (by rw [hzl]; exact hi),
          List.getD_eq_getElem _ _ hi]
        simp only [List.getElem_map, List.getElem_zip]
        exact ⟨rfl, rfl, rfl, rfl, rfl, rfl⟩

/-- C5 counterexample: a concrete two-source statistical call returns with the
first snapshot mutated — its hourly temperatures `[0, 10]` have been replaced
by the smoothed curve `[0, 4]` — so the inputs are not unchanged. -/
theorem c5_counterexample :
    (aggregate false (.error ()) (.error AIFailure.timeout) [wdHourly, wdPlain] "en").map
        Prod.snd = Except.ok [wdHourlySmoothed, wdPlain] ∧
    wdHourlySmoothed ≠ wdHourly := by
  constructor
  · have h04 : ({ alpha := 2/5 } : EWMA).smooth_array [some 0, some 10] = [0, 4] := by
      simp [EWMA.smooth_array, smoothAux, ewmaStep]
      norm_num
    simp only [aggregate, statistical_aggregate, wdHourly, wdPlain, wdHourlySmoothed,
      applyBackfill, needsCalc, strTruthy, ratTruthy, locPrague]
    simp [h04, Except.map, pure, Except.pure]
  · decide

/-- C5 (amended): whenever `aggregate` returns, every snapshot after the first
is unchanged, and the first snapshot is unchanged except possibly its
astronomy block (backfill) and the temperatures of its hourly entries
(statistical smoothing): provider, location, current state, daily series,
fetch timestamp, hourly length and all non-temperature hourly fields are
preserved. -/
theorem c5_mutation_confined (has_ai : Bool) (astro_calc : Except Unit AstroCalcResult)
    (ai : Except AIFailure AIResult) (wd0 : WeatherData) (rest : List WeatherData)
    (lang : String) (f : AggregatedForecast) (post : List WeatherData)
    (h : aggregate has_ai astro_calc ai (wd0 :: rest) lang = .ok (f, post)) :
    ∃ wd0f, post = wd0f :: rest ∧
      wd0f.provider = wd0.provider ∧ wd0f.location = wd0.location ∧
      wd0f.current = wd0.current ∧ wd0f.daily_forecast = wd0.daily_forecast ∧
      wd0f.fetched_at = wd0.fetched_at ∧
      wd0f.hourly_forecast.length = wd0.hourly_forecast.length ∧
      (∀ i, i < wd0.hourly_forecast.length →
        hourlyAgreesExceptTemp (wd0f.hourly_forecast.getD i hfDummy)
          (wd0.hourly_forecast.getD i hfDummy)) := by
  have hB := applyBackfill_preserves wd0 astro_calc
  simp only [aggregate] at h
  by_cases hrest : rest = []
  · subst hrest
    rw [if_pos rfl] at h
    rw [show (pure : AggregatedForecast × List WeatherData →
      Except AggError (AggregatedForecast × List WeatherData)) = Except.ok from rfl] at h
    rw [Except.ok.injEq, Prod.mk.injEq] at h
    refine ⟨applyBackfill wd0 astro_calc, h.2.symm, hB.1, hB.2.1, hB.2.2.1, hB.2.2.2.1,
      hB.2.2.2.2.2, by rw [hB.2.2.2.2.1], ?_⟩
    intro i hi
    rw [hB.2.2.2.2.1]
    exact hourlyAgreesExceptTemp_refl _
  · rw [if_neg hrest] at h
    have hfromstat : ∀ (hs : statistical_aggregate (applyBackfill wd0 astro_calc :: rest) lang
          = .ok (f, post)),
        ∃ wd0f, post = wd0f :: rest ∧
          wd0f.provider = wd0.provider ∧ wd0f.location = wd0.location ∧
          wd0f.current = wd0.current ∧ wd0f.daily_forecast = wd0.daily_forecast ∧
          wd0f.fetched_at = wd0.fetched_at ∧
          wd0f.hourly_forecast.length = wd0.hourly_forecast.length ∧
          (∀ i, i < wd0.hourly_forecast.length →
            hourlyAgreesExceptTemp (wd0f.hourly_forecast.getD i hfDummy)
              (wd0.hourly_forecast.getD i hfDummy)) := by
      intro hs
      obtain ⟨wd0f, hp, h1, h2, h3, h4, h5, h6, h7⟩ :=
        statistical_post (applyBackfill wd0 astro_calc) rest lang f post hs
      refine ⟨wd0f, hp, h1.trans hB.1, h2.trans hB.2.1, h3.trans hB.2.2.1,
        h4.trans hB.2.2.2.1, h5.trans hB.2.2.2.2.2, ?_, ?_⟩
      · rw [h6, hB.2.2.2.2.1]
      · intro i hi
        have hi2 : i < (applyBackfill wd0 astro_calc).hourly_forecast.length := by
          rw [hB.2.2.2.2.1]
          exact hi
        have hag := h7 i hi2
        rw [hB.2.2.2.2.1] at hag
        exact hag
    by_cases hai : has_ai = true
    · rw [hai, if_pos rfl] at h
      cases ai with
      | error e => exact hfromstat h
      | ok r =>
        simp only [ai_aggregate] at h
        cases hc : (applyBackfill wd0 astro_calc).current with
        | none =>
          rw [hc] at h
          exact hfromstat h
        | some c0 =>
          rw [hc] at h
          rw [show (pure : AggregatedForecast × List WeatherData →
            Except AggError (AggregatedForecast × List WeatherData)) = Except.ok from rfl] at h
          rw [Except.ok.injEq, Prod.mk.injEq] at h
          refine ⟨applyBackfill wd0 astro_calc, h.2.symm, hB.1, hB.2.1, hB.2.2.1,
            hB.2.2.2.1, hB.2.2.2.2.2, by rw [hB.2.2.2.2.1], ?_⟩
          intro i hi
          rw [hB.2.2.2.2.1]
          exact hourlyAgreesExceptTemp_refl _
    · rw [if_neg hai] at h
      exact hfromstat h

/-- Witness for C5 (amended) on a concrete single-snapshot call. -/
theorem c5_mutation_confined_witness :
    aggregate false (.error ()) (.error AIFailure.timeout) [wdPlain] "en" =
      .ok ({ location := locPrague, current := some { temperature := 20 },
             daily_forecast := [], hourly_forecast := [], astronomy := none,
             ai_summary := none, confidence_score := 3/4,
             sources_used := ["met-norway"] }, [wdPlain]) ∧
    (∃ wd0f, ([wdPlain] : List WeatherData) = wd0f :: ([] : List WeatherData) ∧
      wd0f.provider = wdPlain.provider ∧ wd0f.location = wdPlain.location ∧
      wd0f.current = wdPlain.current ∧ wd0f.daily_forecast = wdPlain.daily_forecast ∧
      wd0f.fetched_at = wdPlain.fetched_at ∧
      wd0f.hourly_forecast.length = wdPlain.hourly_forecast.length ∧
      (∀ i, i < wdPlain.hourly_forecast.length →
        hourlyAgreesExceptTemp (wd0f.hourly_forecast.getD i hfDummy)
          (wdPlain.hourly_forecast.getD i hfDummy))) :=
  ⟨rfl, c5_mutation_confined false (.error ()) (.error AIFailure.timeout) wdPlain [] "en"
    _ [wdPlain] rfl⟩

end McpWeather
